import Mathlib

/-!
Shallow embedding of the client hooks in `src/src/hooks/groups/index.tsx`
of the SaaS-LMS repository, together with theorems settling the frozen
claims about them.

Modelling conventions:
* JavaScript `undefined` is `Option.none`; a possibly-undefined string
  field is `Option String` and JS truthiness of a string is `s ≠ ""`.
* The external collaborators (file upload service, server actions,
  react-query callbacks) are modelled as an environment record of pure
  functions; each hook body is a pure function from the environment and
  its inputs to the ordered list of observable events it emits
  (upload calls, server-action calls, toasts, dispatches, redirects).
* An uncaught JavaScript exception (e.g. reading `.length` of
  `undefined`) is an explicit `threw` outcome; a `return` inside the
  mutation function stops the event trace at that point.
-/

namespace SaaSLMS

/-- JS truthiness of a possibly-undefined string value: `undefined` and
the empty string are falsy, every other string is truthy. -/
def truthyStr : Option String → Bool
  | none => false
  | some s => s ≠ ""

/-! ### useGroupSettings: the submit mutation (lines 280-390) -/

/-- Form values of the group-settings form (`GroupSettingsSchema`).
File inputs are lists of file names; `none` models an `undefined`
field, `some []` a defined but empty file list. -/
structure GroupSettingsValues where
  thumbnail : Option (List String)
  icon : Option (List String)
  name : Option String
  description : Option String
  jsondescription : Option String

/-- External collaborators of the settings mutation: `upload f` is the
result of `upload.uploadFile` on file `f` (`none` models a thrown upload
error or a result without a `uuid`), and `respond tag value` is the
`status` of `onUpDateGroupSettings(groupid, tag, value, path)`. -/
structure GSEnv where
  upload : String → Option String
  respond : String → String → Nat

/-- Observable events emitted by the settings mutation, in order. -/
inductive GSEvent where
  | uploadCall (file : String)
  | updateCall (groupid tag value path : String)
  | toastError (description : String)
  | toastSuccess (description : String)
  deriving DecidableEq, Repr

/-- Whether the mutation function returned normally or threw an
uncaught exception. -/
inductive GSOutcome where
  | returned
  | threw
  deriving DecidableEq, Repr

/-- A run of the mutation: its ordered event trace and its outcome. -/
structure GSRun where
  events : List GSEvent
  outcome : GSOutcome
  deriving DecidableEq, Repr

/-- The redirect path passed to every settings update call. -/
def settingsPath (groupid : String) : String :=
  "/group/" ++ groupid ++ "/settings"

/-- Lines 283-304: the thumbnail block. Returns the emitted events and
whether control falls through to the next block (`false` means the
`return toast(...)` in the catch ran). -/
def thumbnailStep (env : GSEnv) (groupid : String)
    (values : GroupSettingsValues) : List GSEvent × Bool :=
  match values.thumbnail with
  | none => ([], true)
  | some files =>
    if files.length > 0 then
      match env.upload files.headI with
      | none =>
        ([GSEvent.uploadCall files.headI,
          GSEvent.toastError "Failed to update thumbnail."], false)
      | some uuid =>
        if env.respond "IMAGE" uuid ≠ 200 then
          ([GSEvent.uploadCall files.headI,
            GSEvent.updateCall groupid "IMAGE" uuid (settingsPath groupid),
            GSEvent.toastError "Failed to update thumbnail."], false)
        else
          ([GSEvent.uploadCall files.headI,
            GSEvent.updateCall groupid "IMAGE" uuid (settingsPath groupid)],
           true)
    else ([], true)

/-- Lines 306-327: the icon block, structurally identical to the
thumbnail block with tag `ICON`. -/
def iconStep (env : GSEnv) (groupid : String)
    (values : GroupSettingsValues) : List GSEvent × Bool :=
  match values.icon with
  | none => ([], true)
  | some files =>
    if files.length > 0 then
      match env.upload files.headI with
      | none =>
        ([GSEvent.uploadCall files.headI,
          GSEvent.toastError "Failed to update icon."], false)
      | some uuid =>
        if env.respond "ICON" uuid ≠ 200 then
          ([GSEvent.uploadCall files.headI,
            GSEvent.updateCall groupid "ICON" uuid (settingsPath groupid),
            GSEvent.toastError "Failed to update icon."], false)
        else
          ([GSEvent.uploadCall files.headI,
            GSEvent.updateCall groupid "ICON" uuid (settingsPath groupid)],
           true)
    else ([], true)

/-- Lines 329-341: the name block. A non-200 response makes the
mutation `return` the error toast. -/
def nameStep (env : GSEnv) (groupid : String)
    (values : GroupSettingsValues) : List GSEvent × Bool :=
  if truthyStr values.name then
    let n := values.name.getD ""
    if env.respond "NAME" n ≠ 200 then
      ([GSEvent.updateCall groupid "NAME" n (settingsPath groupid),
        GSEvent.toastError "Oops! looks like your form is empty"], false)
    else ([GSEvent.updateCall groupid "NAME" n (settingsPath groupid)], true)
  else ([], true)

/-- Lines 344-356: the description block. -/
def descriptionStep (env : GSEnv) (groupid : String)
    (values : GroupSettingsValues) : List GSEvent × Bool :=
  if truthyStr values.description then
    let d := values.description.getD ""
    if env.respond "DESCRIPTION" d ≠ 200 then
      ([GSEvent.updateCall groupid "DESCRIPTION" d (settingsPath groupid),
        GSEvent.toastError "Oops! looks like your form is empty"], false)
    else
      ([GSEvent.updateCall groupid "DESCRIPTION" d (settingsPath groupid)],
       true)
  else ([], true)

/-- Lines 357-369: the jsondescription block. -/
def jsondescriptionStep (env : GSEnv) (groupid : String)
    (values : GroupSettingsValues) : List GSEvent × Bool :=
  if truthyStr values.jsondescription then
    let j := values.jsondescription.getD ""
    if env.respond "JSONDESCRIPTION" j ≠ 200 then
      ([GSEvent.updateCall groupid "JSONDESCRIPTION" j (settingsPath groupid),
        GSEvent.toastError "Oops! looks like your form is empty"], false)
    else
      ([GSEvent.updateCall groupid "JSONDESCRIPTION" j
          (settingsPath groupid)], true)
  else ([], true)

/-- Lines 370-383: the final empty-form check and the success toast.
The JS condition
`!values.description && !values.name && !values.thumbnail.length &&
 !values.icon.length && !values.jsondescription`
is evaluated left to right with short-circuiting; reading `.length` of
an `undefined` thumbnail or icon throws a TypeError. -/
def emptyCheckStep (values : GroupSettingsValues) : GSRun :=
  if truthyStr values.description then
    ⟨[GSEvent.toastSuccess "Group data updated"], GSOutcome.returned⟩
  else if truthyStr values.name then
    ⟨[GSEvent.toastSuccess "Group data updated"], GSOutcome.returned⟩
  else
    match values.thumbnail with
    | none => ⟨[], GSOutcome.threw⟩
    | some tl =>
      if tl.length ≠ 0 then
        ⟨[GSEvent.toastSuccess "Group data updated"], GSOutcome.returned⟩
      else
        match values.icon with
        | none => ⟨[], GSOutcome.threw⟩
        | some il =>
          if il.length ≠ 0 then
            ⟨[GSEvent.toastSuccess "Group data updated"], GSOutcome.returned⟩
          else if truthyStr values.jsondescription then
            ⟨[GSEvent.toastSuccess "Group data updated"], GSOutcome.returned⟩
          else
            ⟨[GSEvent.toastError "Oops! looks like your form is empty"],
             GSOutcome.returned⟩

/-- The whole `mutationFn` of `useGroupSettings` (lines 282-384): the
five field blocks in source order, each of which may `return` early,
followed by the empty-form check and the success toast. -/
def useGroupSettingsMutationFn (env : GSEnv) (groupid : String)
    (values : GroupSettingsValues) : GSRun :=
  let t := thumbnailStep env groupid values
  if !t.2 then ⟨t.1, GSOutcome.returned⟩ else
  let i := iconStep env groupid values
  if !i.2 then ⟨t.1 ++ i.1, GSOutcome.returned⟩ else
  let n := nameStep env groupid values
  if !n.2 then ⟨t.1 ++ i.1 ++ n.1, GSOutcome.returned⟩ else
  let d := descriptionStep env groupid values
  if !d.2 then ⟨t.1 ++ i.1 ++ n.1 ++ d.1, GSOutcome.returned⟩ else
  let j := jsondescriptionStep env groupid values
  if !j.2 then ⟨t.1 ++ i.1 ++ n.1 ++ d.1 ++ j.1, GSOutcome.returned⟩ else
  let fc := emptyCheckStep values
  ⟨t.1 ++ i.1 ++ n.1 ++ d.1 ++ j.1 ++ fc.events, fc.outcome⟩

/-- The `(tag, value)` pairs of the `onUpDateGroupSettings` calls in an
event trace, in order. -/
def updateCalls (events : List GSEvent) : List (String × String) :=
  events.filterMap fun e =>
    match e with
    | GSEvent.updateCall _ tag value _ => some (tag, value)
    | _ => none

/-- A file-input field is present and non-empty when it is a defined,
non-empty file list. -/
def presentFiles : Option (List String) → Bool
  | none => false
  | some l => l.length > 0

/-! ### useMediaGallery: the add mutation (lines 635-673) -/

/-- Form values of the media-gallery form (`UpdateGallerySchema`):
an optional video URL and an optional ordered batch of image files. -/
structure GalleryValues where
  videourl : Option String
  image : Option (List String)

/-- Response of `onUpdateGroupGallery`. -/
structure GalleryResp where
  status : Nat
  message : String
  deriving DecidableEq, Repr

/-- External collaborators of the gallery mutation: `upload f` is the
result of `upload.uploadFile` on file `f` (`none` when it yields
nothing), and `respond content` the response of
`onUpdateGroupGallery(groupid, content)` (`none` models an `undefined`
result, whose fields the code reads through optional chaining). -/
structure MGEnv where
  upload : String → Option String
  respond : String → Option GalleryResp

/-- Observable events of the gallery mutation, in order. The error
toast descriptions are `Option String` because the code passes
`update?.message`, which is `undefined` when the response is. -/
inductive MGEvent where
  | uploadCall (file : String)
  | galleryCall (groupid content : String)
  | toastError (description : Option String)
  | toastSuccess (description : String)
  deriving DecidableEq, Repr

/-- Lines 647-666: the `while (count < values.image.length)` loop, one
file per iteration: upload, then commit; a falsy upload result or a
non-200 commit status emits one error toast and `break`s. -/
def galleryLoop (env : MGEnv) (groupid : String) :
    List String → List MGEvent
  | [] => []
  | f :: rest =>
    match env.upload f with
    | none =>
      [MGEvent.uploadCall f,
       MGEvent.toastError (some "Looks like something went wrong!")]
    | some uuid =>
      match env.respond uuid with
      | none =>
        [MGEvent.uploadCall f, MGEvent.galleryCall groupid uuid,
         MGEvent.toastError none]
      | some r =>
        if r.status ≠ 200 then
          [MGEvent.uploadCall f, MGEvent.galleryCall groupid uuid,
           MGEvent.toastError (some r.message)]
        else
          MGEvent.uploadCall f :: MGEvent.galleryCall groupid uuid ::
            galleryLoop env groupid rest

/-- The whole add-mutation `mutationFn` of `useMediaGallery`
(lines 637-672): the optional video-URL update (whose non-200 response
makes the function `return` the error toast), then the image loop, then
the unconditional success toast. -/
def useMediaGalleryMutationFn (env : MGEnv) (groupid : String)
    (values : GalleryValues) : List MGEvent :=
  let videoPart : List MGEvent × Bool :=
    if truthyStr values.videourl then
      let u := values.videourl.getD ""
      match env.respond u with
      | none => ([MGEvent.galleryCall groupid u], true)
      | some r =>
        if r.status ≠ 200 then
          ([MGEvent.galleryCall groupid u,
            MGEvent.toastError (some r.message)], false)
        else ([MGEvent.galleryCall groupid u], true)
    else ([], true)
  if !videoPart.2 then videoPart.1 else
  let imagePart : List MGEvent :=
    match values.image with
    | none => []
    | some files =>
      if files.length ≠ 0 then galleryLoop env groupid files else []
  videoPart.1 ++ imagePart ++
    [MGEvent.toastSuccess "Group gallery updated"]

/-- The gallery contents that end up persisted by a trace: contents of
the `onUpdateGroupGallery` calls whose response status is 200. -/
def persistedGallery (env : MGEnv) (events : List MGEvent) : List String :=
  events.filterMap fun e =>
    match e with
    | MGEvent.galleryCall _ content =>
      match env.respond content with
      | some r => if r.status = 200 then some content else none
      | none => none
    | _ => none

/-- Number of failure notifications (error toasts) in a gallery trace. -/
def galleryErrorCount (events : List MGEvent) : Nat :=
  (events.filter fun e =>
    match e with
    | MGEvent.toastError _ => true
    | _ => false).length

/-- The files a gallery trace attempted to upload, in order. -/
def galleryUploads (events : List MGEvent) : List String :=
  events.filterMap fun e =>
    match e with
    | MGEvent.uploadCall f => some f
    | _ => none

/-- Whether uploading and committing file `f` fully succeeds in
environment `env`: the upload yields a uuid and the gallery update for
that uuid answers status 200. -/
def fileCommits (env : MGEnv) (f : String) : Bool :=
  match env.upload f with
  | none => false
  | some u =>
    match env.respond u with
    | none => false
    | some r => r.status = 200

/-- The event tail the gallery loop emits at a failing file: the upload
call, the commit call when the upload yielded a uuid, and the single
error toast emitted before the `break`. -/
def galleryFailTail (env : MGEnv) (groupid f : String) : List MGEvent :=
  match env.upload f with
  | none =>
    [MGEvent.uploadCall f,
     MGEvent.toastError (some "Looks like something went wrong!")]
  | some u =>
    match env.respond u with
    | none =>
      [MGEvent.uploadCall f, MGEvent.galleryCall groupid u,
       MGEvent.toastError none]
    | some r =>
      [MGEvent.uploadCall f, MGEvent.galleryCall groupid u,
       MGEvent.toastError (some r.message)]

/-! ### useSearch: debounce timer and debounce effect (lines 131-185) -/

/-- The debounce timer semantics of lines 140-145: every change of
`query` (re)starts a 1000ms timeout copying the new value into
`debounce`, and clears the previous pending timeout. Given the ordered
list of `(time, value)` query changes, this returns the `(time, value)`
pairs at which a surviving timer fires: a timer scheduled at `t` is
cleared when the next change happens strictly before `t + delay`,
and fires at `t + delay` otherwise. -/
def debounceFires (delay : Nat) : List (Nat × String) → List (Nat × String)
  | [] => []
  | [(t, v)] => [(t + delay, v)]
  | (t, v) :: (t2, v2) :: rest =>
    if t2 < t + delay then debounceFires delay ((t2, v2) :: rest)
    else (t + delay, v) :: debounceFires delay ((t2, v2) :: rest)

/-- Downstream actions of the debounce effect. -/
inductive SearchAction where
  | refetch (q : String)
  | clearSearch
  deriving DecidableEq, Repr

/-- Lines 176-182: the effect body run on a `debounce` value:
`if (debounce) refetch()` and `if (!debounce) dispatch(onClearSearch())`.
The refetch queries with the current debounce value (the query key is
`["search-data", debounce]`). -/
def debounceEffectBody (debounce : String) : List SearchAction :=
  (if debounce ≠ "" then [SearchAction.refetch debounce] else []) ++
    (if debounce = "" then [SearchAction.clearSearch] else [])

/-- The effect has dependency array `[debounce]`: it re-runs exactly
when the debounce value changes. -/
def onDebounceChange (old new : String) : List SearchAction :=
  if new = old then [] else debounceEffectBody new

/-! ### useCustomDomain: the add-domain mutation callbacks (lines 812-826) -/

/-- Result of `onAddCustomDomain`. -/
structure DomainResp where
  status : Nat
  message : String
  deriving DecidableEq, Repr

/-- Observable events of the add-domain mutation after the mutation
function settles. -/
inductive DomainEvent where
  | toastShown (title description : String)
  | invalidateQueries (key : String)
  deriving DecidableEq, Repr

/-- Lines 816-825: `onSuccess` toasts "Success" when `status === 200`
and "Error" otherwise, with the result message as description;
`onSettled` then invalidates the `["domain-config"]` query. A rejected
mutation (`none`) skips `onSuccess` but still runs `onSettled`. -/
def addDomainSettle (result : Option DomainResp) : List DomainEvent :=
  (match result with
   | some r =>
     [DomainEvent.toastShown (if r.status = 200 then "Success" else "Error")
        r.message]
   | none => []) ++ [DomainEvent.invalidateQueries "domain-config"]

/-- Number of query invalidations in a domain-mutation trace. -/
def domainInvalidations (events : List DomainEvent) : Nat :=
  (events.filter fun e =>
    match e with
    | DomainEvent.invalidateQueries _ => true
    | _ => false).length

/-! ### useGroupChatOnline: presence sync and subscription (lines 70-102) -/

structure PresenceMember where
  userid : String
  deriving DecidableEq, Repr

instance : Inhabited PresenceMember := ⟨⟨""⟩⟩

/-- One tracked presence payload, of shape `{member: {userid}}`. -/
structure PresencePayload where
  member : PresenceMember
  deriving DecidableEq, Repr

instance : Inhabited PresencePayload := ⟨⟨default⟩⟩

/-- Observable events of the presence tracker. -/
inductive PresenceEvent where
  | dispatchOnline (memberIds : List String)
  | track (userid : String)
  | threw
  deriving DecidableEq, Repr

/-- Lines 77-87: the sync handler iterates over every key of
`channel.presenceState()` and dispatches `onOnline` with the singleton
member list `[{id: state[user][0].member.userid}]`; reading `[0]` of an
empty payload list throws and stops the iteration. -/
def onPresenceSync :
    List (String × List PresencePayload) → List PresenceEvent
  | [] => []
  | (_, []) :: _ => [PresenceEvent.threw]
  | (_, p :: _) :: rest =>
    PresenceEvent.dispatchOnline [p.member.userid] :: onPresenceSync rest

/-- Lines 88-96: the subscription callback tracks the local identity
payload `{member: {userid}}` exactly when the status is `SUBSCRIBED`. -/
def onSubscribeStatus (userid status : String) : List PresenceEvent :=
  if status = "SUBSCRIBED" then [PresenceEvent.track userid] else []

/-! ### useGroupSettings redirect (line 393) and useGroupInfo (lines 451-467) -/

/-- Data returned by `onGetGroupInfo`: its status (the group payload is
irrelevant to the redirect). -/
structure GroupInfoData where
  status : Nat
  deriving DecidableEq, Repr

/-- Line 393: `if (data?.status !== 200) router.push('/group/create')`.
Returns the list of router pushes issued; `none` models a query whose
data is still `undefined`. -/
def useGroupSettingsRedirects (data : Option GroupInfoData) : List String :=
  if (match data with
      | none => true
      | some d => d.status ≠ 200) then ["/group/create"] else []

/-- Cached data consumed by `useGroupInfo`. -/
structure AboutGroupData where
  status : Nat
  group : String
  deriving DecidableEq, Repr

/-- Result of running the `useGroupInfo` hook body: either it throws
(after emitting the listed router pushes) or returns the group. -/
inductive GroupInfoResult where
  | threw (pushes : List String)
  | returned (pushes : List String) (group : String)
  deriving DecidableEq, Repr

/-- Lines 452-466: `if (!data) router.push("/explore")`, then the
unconditional destructuring `const { group, status } = data` (which
throws a TypeError when `data` is `undefined`), then
`if (status !== 200) router.push("/explore")`, then `return { group }`. -/
def useGroupInfoRun (data : Option AboutGroupData) : GroupInfoResult :=
  match data with
  | none => GroupInfoResult.threw ["/explore"]
  | some d =>
    if d.status ≠ 200 then GroupInfoResult.returned ["/explore"] d.group
    else GroupInfoResult.returned [] d.group

end SaaSLMS

namespace SaaSLMS

/-! ## Theorems for the claims -/

/-! ### Helper lemmas about the settings-mutation steps -/

theorem thumbnailStep_not_present (env : GSEnv) (groupid : String)
    (values : GroupSettingsValues)
    (h : presentFiles values.thumbnail = false) :
    thumbnailStep env groupid values = ([], true) := by
  cases ht : values.thumbnail with
  | none => simp [thumbnailStep, ht]
  | some files =>
    have h0 : ¬ 0 < files.length := by simpa [presentFiles, ht] using h
    simp [thumbnailStep, ht, h0]

theorem iconStep_not_present (env : GSEnv) (groupid : String)
    (values : GroupSettingsValues)
    (h : presentFiles values.icon = false) :
    iconStep env groupid values = ([], true) := by
  cases hi : values.icon with
  | none => simp [iconStep, hi]
  | some files =>
    have h0 : ¬ 0 < files.length := by simpa [presentFiles, hi] using h
    simp [iconStep, hi, h0]

theorem thumbnailStep_of_success (env : GSEnv) (groupid : String)
    (values : GroupSettingsValues)
    (hu : ∀ f, (env.upload f).isSome)
    (hr : ∀ tag v, env.respond tag v = 200) :
    thumbnailStep env groupid values =
      ((if presentFiles values.thumbnail then
          [GSEvent.uploadCall (values.thumbnail.getD []).headI,
           GSEvent.updateCall groupid "IMAGE"
             ((env.upload ((values.thumbnail.getD []).headI)).getD "")
             (settingsPath groupid)]
        else []), true) := by
  cases ht : values.thumbnail with
  | none => simp [thumbnailStep, ht, presentFiles]
  | some files =>
    by_cases hl : 0 < files.length
    · obtain ⟨u, hu2⟩ := Option.isSome_iff_exists.mp (hu files.headI)
      simp [thumbnailStep, ht, hl, hu2, hr, presentFiles]
    · simp [thumbnailStep, ht, hl, presentFiles]

theorem iconStep_of_success (env : GSEnv) (groupid : String)
    (values : GroupSettingsValues)
    (hu : ∀ f, (env.upload f).isSome)
    (hr : ∀ tag v, env.respond tag v = 200) :
    iconStep env groupid values =
      ((if presentFiles values.icon then
          [GSEvent.uploadCall (values.icon.getD []).headI,
           GSEvent.updateCall groupid "ICON"
             ((env.upload ((values.icon.getD []).headI)).getD "")
             (settingsPath groupid)]
        else []), true) := by
  cases hi : values.icon with
  | none => simp [iconStep, hi, presentFiles]
  | some files =>
    by_cases hl : 0 < files.length
    · obtain ⟨u, hu2⟩ := Option.isSome_iff_exists.mp (hu files.headI)
      simp [iconStep, hi, hl, hu2, hr, presentFiles]
    · simp [iconStep, hi, hl, presentFiles]

theorem nameStep_of_success (env : GSEnv) (groupid : String)
    (values : GroupSettingsValues)
    (hr : ∀ tag v, env.respond tag v = 200) :
    nameStep env groupid values =
      ((if truthyStr values.name then
          [GSEvent.updateCall groupid "NAME" (values.name.getD "")
             (settingsPath groupid)]
        else []), true) := by
  by_cases hn : truthyStr values.name <;> simp [nameStep, hn, hr]

theorem descriptionStep_of_success (env : GSEnv) (groupid : String)
    (values : GroupSettingsValues)
    (hr : ∀ tag v, env.respond tag v = 200) :
    descriptionStep env groupid values =
      ((if truthyStr values.description then
          [GSEvent.updateCall groupid "DESCRIPTION"
             (values.description.getD "") (settingsPath groupid)]
        else []), true) := by
  by_cases hd : truthyStr values.description <;>
    simp [descriptionStep, hd, hr]

theorem jsondescriptionStep_of_success (env : GSEnv) (groupid : String)
    (values : GroupSettingsValues)
    (hr : ∀ tag v, env.respond tag v = 200) :
    jsondescriptionStep env groupid values =
      ((if truthyStr values.jsondescription then
          [GSEvent.updateCall groupid "JSONDESCRIPTION"
             (values.jsondescription.getD "") (settingsPath groupid)]
        else []), true) := by
  by_cases hj : truthyStr values.jsondescription <;>
    simp [jsondescriptionStep, hj, hr]

theorem updateCalls_append (a b : List GSEvent) :
    updateCalls (a ++ b) = updateCalls a ++ updateCalls b :=
  List.filterMap_append a b _

theorem updateCalls_emptyCheckStep (values : GroupSettingsValues) :
    updateCalls (emptyCheckStep values).events = [] := by
  unfold emptyCheckStep
  repeat' split
  all_goals rfl

/-- C1: when the submit mutation of `useGroupSettings` runs and every
upload and update succeeds, it issues exactly one
`onUpDateGroupSettings` call per present-and-non-empty field, tagged
IMAGE, ICON, NAME, DESCRIPTION, JSONDESCRIPTION, in the fixed order
thumbnail, icon, name, description, jsondescription; and for a
submission with only the name set, exactly one call is issued, tagged
NAME, in every environment. -/
theorem useGroupSettings_one_call_per_field_in_order :
    (∀ (env : GSEnv) (groupid : String) (values : GroupSettingsValues),
      (∀ f, (env.upload f).isSome) →
      (∀ tag v, env.respond tag v = 200) →
      updateCalls (useGroupSettingsMutationFn env groupid values).events =
        (if presentFiles values.thumbnail then
           [("IMAGE", (env.upload ((values.thumbnail.getD []).headI)).getD "")]
         else []) ++
        (if presentFiles values.icon then
           [("ICON", (env.upload ((values.icon.getD []).headI)).getD "")]
         else []) ++
        (if truthyStr values.name then [("NAME", values.name.getD "")]
         else []) ++
        (if truthyStr values.description then
           [("DESCRIPTION", values.description.getD "")] else []) ++
        (if truthyStr values.jsondescription then
           [("JSONDESCRIPTION", values.jsondescription.getD "")] else [])) ∧
    ∀ (env : GSEnv) (groupid : String) (tn ic : Option (List String))
      (n : String),
      n ≠ "" → presentFiles tn = false → presentFiles ic = false →
      updateCalls (useGroupSettingsMutationFn env groupid
        ⟨tn, ic, some n, none, none⟩).events = [("NAME", n)] := by
  constructor
  · intro env groupid values hu hr
    simp only [useGroupSettingsMutationFn,
      thumbnailStep_of_success env groupid values hu hr,
      iconStep_of_success env groupid values hu hr,
      nameStep_of_success env groupid values hr,
      descriptionStep_of_success env groupid values hr,
      jsondescriptionStep_of_success env groupid values hr,
      Bool.not_true, Bool.false_eq_true, if_false, ite_false]
    simp only [updateCalls_append, updateCalls_emptyCheckStep,
      List.append_nil]
    split_ifs <;> rfl
  · intro env groupid tn ic n hn htn hic
    have ht : thumbnailStep env groupid ⟨tn, ic, some n, none, none⟩ =
        ([], true) :=
      thumbnailStep_not_present env groupid _ htn
    have hi : iconStep env groupid ⟨tn, ic, some n, none, none⟩ =
        ([], true) :=
      iconStep_not_present env groupid _ hic
    by_cases hst : env.respond "NAME" n = 200
    · simp [useGroupSettingsMutationFn, ht, hi, nameStep, descriptionStep,
        jsondescriptionStep, emptyCheckStep, truthyStr, hn, hst,
        updateCalls]
    · simp [useGroupSettingsMutationFn, ht, hi, nameStep, descriptionStep,
        jsondescriptionStep, truthyStr, hn, hst, updateCalls]

/-- Closed witness for C1: a fully populated, fully successful
submission yields the five calls in the fixed order, and a submission
with only the name set, in a failing environment with empty-but-defined
thumbnail and undefined icon, yields exactly the single NAME call. -/
theorem useGroupSettings_one_call_per_field_in_order_witness :
    updateCalls (useGroupSettingsMutationFn
        ⟨fun f => some ("uuid-" ++ f), fun _ _ => 200⟩ "g1"
        ⟨some ["t.png"], some ["i.png"], some "Alpha", some "About us",
         some "jsontext"⟩).events =
      [("IMAGE", "uuid-t.png"), ("ICON", "uuid-i.png"), ("NAME", "Alpha"),
       ("DESCRIPTION", "About us"), ("JSONDESCRIPTION", "jsontext")] ∧
    updateCalls (useGroupSettingsMutationFn
        ⟨fun _ => none, fun _ _ => 404⟩ "g2"
        ⟨some [], none, some "Alpha", none, none⟩).events =
      [("NAME", "Alpha")] := by
  constructor
  · have h := useGroupSettings_one_call_per_field_in_order.1
      ⟨fun f => some ("uuid-" ++ f), fun _ _ => 200⟩ "g1"
      ⟨some ["t.png"], some ["i.png"], some "Alpha", some "About us",
       some "jsontext"⟩ (fun _ => rfl) (fun _ _ => rfl)
    exact h.trans (by decide)
  · exact useGroupSettings_one_call_per_field_in_order.2
      ⟨fun _ => none, fun _ _ => 404⟩ "g2" (some []) none "Alpha"
      (by decide) (by decide) (by decide)

theorem mutationFn_of_thumbnail_abort (env : GSEnv) (groupid : String)
    (values : GroupSettingsValues)
    (h : (thumbnailStep env groupid values).2 = false) :
    useGroupSettingsMutationFn env groupid values =
      ⟨(thumbnailStep env groupid values).1, GSOutcome.returned⟩ := by
  simp [useGroupSettingsMutationFn, h]

theorem mutationFn_of_icon_abort (env : GSEnv) (groupid : String)
    (values : GroupSettingsValues)
    (ht : (thumbnailStep env groupid values).2 = true)
    (h : (iconStep env groupid values).2 = false) :
    useGroupSettingsMutationFn env groupid values =
      ⟨(thumbnailStep env groupid values).1 ++
         (iconStep env groupid values).1, GSOutcome.returned⟩ := by
  simp [useGroupSettingsMutationFn, ht, h]

theorem thumbnailStep_tags (env : GSEnv) (groupid : String)
    (values : GroupSettingsValues) :
    ∀ p ∈ updateCalls (thumbnailStep env groupid values).1, p.1 = "IMAGE" := by
  unfold thumbnailStep
  repeat' split
  all_goals simp [updateCalls]

theorem iconStep_tags (env : GSEnv) (groupid : String)
    (values : GroupSettingsValues) :
    ∀ p ∈ updateCalls (iconStep env groupid values).1, p.1 = "ICON" := by
  unfold iconStep
  repeat' split
  all_goals simp [updateCalls]

/-- C2 (amended): a failing thumbnail (or icon) step reports its
user-visible error toast but `return`s from the mutation, so NO
subsequent field receives an update call: after a thumbnail failure
every issued update call is tagged IMAGE, and after an icon failure
every issued update call is tagged IMAGE or ICON. -/
theorem useGroupSettings_field_failure_aborts_rest :
    (∀ (env : GSEnv) (groupid : String) (values : GroupSettingsValues),
      presentFiles values.thumbnail = true →
      (env.upload ((values.thumbnail.getD []).headI) = none ∨
        ∀ u, env.upload ((values.thumbnail.getD []).headI) = some u →
          env.respond "IMAGE" u ≠ 200) →
      GSEvent.toastError "Failed to update thumbnail." ∈
          (useGroupSettingsMutationFn env groupid values).events ∧
      ∀ p ∈ updateCalls (useGroupSettingsMutationFn env groupid values).events,
        p.1 = "IMAGE") ∧
    ∀ (env : GSEnv) (groupid : String) (values : GroupSettingsValues),
      (thumbnailStep env groupid values).2 = true →
      presentFiles values.icon = true →
      (env.upload ((values.icon.getD []).headI) = none ∨
        ∀ u, env.upload ((values.icon.getD []).headI) = some u →
          env.respond "ICON" u ≠ 200) →
      GSEvent.toastError "Failed to update icon." ∈
          (useGroupSettingsMutationFn env groupid values).events ∧
      ∀ p ∈ updateCalls (useGroupSettingsMutationFn env groupid values).events,
        p.1 = "IMAGE" ∨ p.1 = "ICON" := by
  constructor
  · intro env groupid values hp hf
    obtain ⟨files, ht⟩ : ∃ files, values.thumbnail = some files := by
      cases h : values.thumbnail with
      | none => rw [h] at hp; simp [presentFiles] at hp
      | some files => exact ⟨files, rfl⟩
    have hl : 0 < files.length := by simpa [presentFiles, ht] using hp
    cases hu : env.upload files.headI with
    | none =>
      have hstep : thumbnailStep env groupid values =
          ([GSEvent.uploadCall files.headI,
            GSEvent.toastError "Failed to update thumbnail."], false) := by
        simp [thumbnailStep, ht, hl, hu]
      rw [mutationFn_of_thumbnail_abort env groupid values (by rw [hstep])]
      rw [hstep]
      exact ⟨by simp, by simp [updateCalls]⟩
    | some u =>
      have hr : env.respond "IMAGE" u ≠ 200 := by
        rcases hf with hf | hf
        · rw [ht] at hf; simp [hu] at hf
        · exact hf u (by rw [ht]; simpa using hu)
      have hstep : thumbnailStep env groupid values =
          ([GSEvent.uploadCall files.headI,
            GSEvent.updateCall groupid "IMAGE" u (settingsPath groupid),
            GSEvent.toastError "Failed to update thumbnail."], false) := by
        simp [thumbnailStep, ht, hl, hu, hr]
      rw [mutationFn_of_thumbnail_abort env groupid values (by rw [hstep])]
      rw [hstep]
      exact ⟨by simp, by simp [updateCalls]⟩
  · intro env groupid values hts hp hf
    obtain ⟨files, hi⟩ : ∃ files, values.icon = some files := by
      cases h : values.icon with
      | none => rw [h] at hp; simp [presentFiles] at hp
      | some files => exact ⟨files, rfl⟩
    have hl : 0 < files.length := by simpa [presentFiles, hi] using hp
    have tagsT := thumbnailStep_tags env groupid values
    cases hu : env.upload files.headI with
    | none =>
      have hstep : iconStep env groupid values =
          ([GSEvent.uploadCall files.headI,
            GSEvent.toastError "Failed to update icon."], false) := by
        simp [iconStep, hi, hl, hu]
      rw [mutationFn_of_icon_abort env groupid values hts (by rw [hstep])]
      rw [hstep]
      constructor
      · simp
      · intro p hp2
        rw [updateCalls_append] at hp2
        rcases List.mem_append.mp hp2 with h2 | h2
        · exact Or.inl (tagsT p h2)
        · simp [updateCalls] at h2
    | some u =>
      have hr : env.respond "ICON" u ≠ 200 := by
        rcases hf with hf | hf
        · rw [hi] at hf; simp [hu] at hf
        · exact hf u (by rw [hi]; simpa using hu)
      have hstep : iconStep env groupid values =
          ([GSEvent.uploadCall files.headI,
            GSEvent.updateCall groupid "ICON" u (settingsPath groupid),
            GSEvent.toastError "Failed to update icon."], false) := by
        simp [iconStep, hi, hl, hu, hr]
      rw [mutationFn_of_icon_abort env groupid values hts (by rw [hstep])]
      rw [hstep]
      constructor
      · simp
      · intro p hp2
        rw [updateCalls_append] at hp2
        rcases List.mem_append.mp hp2 with h2 | h2
        · exact Or.inl (tagsT p h2)
        · simp [updateCalls] at h2
          exact Or.inr (by rw [h2])

/-- Counterexample for C2 as stated: with a failing thumbnail upload
and a present non-empty name, the claim requires the NAME field to
still receive its update call, but the mutation issues no update call
at all. -/
theorem useGroupSettings_field_failure_aborts_rest_counterexample :
    truthyStr (some "Alpha") = true ∧
    (⟨fun _ => none, fun _ _ => 200⟩ : GSEnv).upload "t.png" = none ∧
    updateCalls (useGroupSettingsMutationFn
        ⟨fun _ => none, fun _ _ => 200⟩ "g1"
        ⟨some ["t.png"], none, some "Alpha", none, none⟩).events = [] := by
  decide

/-- Closed witness for C2 (amended): on a concrete failing thumbnail
upload the error toast is reported and the trace contains no update
call. -/
theorem useGroupSettings_field_failure_aborts_rest_witness :
    GSEvent.toastError "Failed to update thumbnail." ∈
      (useGroupSettingsMutationFn ⟨fun _ => none, fun _ _ => 200⟩ "g9"
        ⟨some ["t.png"], some ["i.png"], some "Beta", none, none⟩).events ∧
    updateCalls (useGroupSettingsMutationFn ⟨fun _ => none, fun _ _ => 200⟩
        "g9" ⟨some ["t.png"], some ["i.png"], some "Beta", none,
        none⟩).events = [] := by
  refine ⟨(useGroupSettings_field_failure_aborts_rest.1
    ⟨fun _ => none, fun _ _ => 200⟩ "g9"
    ⟨some ["t.png"], some ["i.png"], some "Beta", none, none⟩
    (by decide) (Or.inl rfl)).1, by decide⟩

/-- C3 (amended): when none of the five fields is present and
non-empty AND the thumbnail and icon values are defined (empty) file
lists, the submit mutation performs zero network calls and reports
exactly one empty-form error notification; its whole trace is that
single toast. -/
theorem useGroupSettings_empty_submit_single_toast :
    ∀ (env : GSEnv) (groupid : String) (nm ds js : Option String),
      truthyStr nm = false → truthyStr ds = false → truthyStr js = false →
      useGroupSettingsMutationFn env groupid ⟨some [], some [], nm, ds, js⟩ =
        ⟨[GSEvent.toastError "Oops! looks like your form is empty"],
         GSOutcome.returned⟩ := by
  intro env groupid nm ds js hn hd hj
  have ht : thumbnailStep env groupid ⟨some [], some [], nm, ds, js⟩ =
      ([], true) :=
    thumbnailStep_not_present env groupid _ (by simp [presentFiles])
  have hi : iconStep env groupid ⟨some [], some [], nm, ds, js⟩ =
      ([], true) :=
    iconStep_not_present env groupid _ (by simp [presentFiles])
  simp [useGroupSettingsMutationFn, ht, hi, nameStep, descriptionStep,
    jsondescriptionStep, emptyCheckStep, hn, hd, hj]

/-- Counterexample for C3 as stated: a submission in which every field
is absent (`undefined` thumbnail and icon) performs zero network calls
but reports NO empty-form notification — the mutation throws on
reading `.length` of the undefined thumbnail instead. -/
theorem useGroupSettings_empty_submit_single_toast_counterexample :
    useGroupSettingsMutationFn ⟨fun _ => some "u1", fun _ _ => 200⟩ "g1"
        ⟨none, none, none, none, none⟩ =
      ⟨[], GSOutcome.threw⟩ := by
  decide

/-- Closed witness for C3 (amended): a concrete all-empty submission
with defined empty file lists yields exactly the empty-form toast. -/
theorem useGroupSettings_empty_submit_single_toast_witness :
    useGroupSettingsMutationFn ⟨fun _ => some "u1", fun _ _ => 200⟩ "g7"
        ⟨some [], some [], some "", none, some ""⟩ =
      ⟨[GSEvent.toastError "Oops! looks like your form is empty"],
       GSOutcome.returned⟩ :=
  useGroupSettings_empty_submit_single_toast
    ⟨fun _ => some "u1", fun _ _ => 200⟩ "g7" (some "") none (some "")
    (by decide) (by decide) (by decide)

theorem oops_not_in_thumbnailStep (env : GSEnv) (groupid : String)
    (values : GroupSettingsValues) :
    GSEvent.toastError "Oops! looks like your form is empty" ∉
      (thumbnailStep env groupid values).1 := by
  unfold thumbnailStep
  repeat' split
  all_goals simp

theorem oops_not_in_iconStep (env : GSEnv) (groupid : String)
    (values : GroupSettingsValues) :
    GSEvent.toastError "Oops! looks like your form is empty" ∉
      (iconStep env groupid values).1 := by
  unfold iconStep
  repeat' split
  all_goals simp

theorem mutationFn_of_all_continue (env : GSEnv) (groupid : String)
    (values : GroupSettingsValues)
    (h1 : (thumbnailStep env groupid values).2 = true)
    (h2 : (iconStep env groupid values).2 = true)
    (h3 : (nameStep env groupid values).2 = true)
    (h4 : (descriptionStep env groupid values).2 = true)
    (h5 : (jsondescriptionStep env groupid values).2 = true) :
    useGroupSettingsMutationFn env groupid values =
      ⟨(thumbnailStep env groupid values).1 ++
         (iconStep env groupid values).1 ++
         (nameStep env groupid values).1 ++
         (descriptionStep env groupid values).1 ++
         (jsondescriptionStep env groupid values).1 ++
         (emptyCheckStep values).events,
       (emptyCheckStep values).outcome⟩ := by
  simp [useGroupSettingsMutationFn, h1, h2, h3, h4, h5]

/-- C9 (amended): when name, description and jsondescription are all
absent or empty, the mutation reaches the empty-form notification only
if thumbnail and icon are both defined file lists; and provided the
icon step does not return early, the mutation throws when the thumbnail
is undefined, or when the thumbnail is a defined empty list and the
icon is undefined. (The short-circuit evaluation of the check means a
defined non-empty thumbnail stops `values.icon.length` from being read,
so an undefined icon alone does not force a throw.) -/
theorem useGroupSettings_emptyCheck_reads_file_fields :
    (∀ (env : GSEnv) (groupid : String) (values : GroupSettingsValues),
      truthyStr values.name = false →
      truthyStr values.description = false →
      truthyStr values.jsondescription = false →
      GSEvent.toastError "Oops! looks like your form is empty" ∈
          (useGroupSettingsMutationFn env groupid values).events →
      values.thumbnail.isSome ∧ values.icon.isSome) ∧
    ∀ (env : GSEnv) (groupid : String) (values : GroupSettingsValues),
      truthyStr values.name = false →
      truthyStr values.description = false →
      truthyStr values.jsondescription = false →
      (iconStep env groupid values).2 = true →
      (values.thumbnail = none ∨
        (values.thumbnail = some ([] : List String) ∧ values.icon = none)) →
      (useGroupSettingsMutationFn env groupid values).outcome =
        GSOutcome.threw := by
  constructor
  · intro env groupid values hn hd hj hmem
    have hns : nameStep env groupid values = ([], true) := by
      simp [nameStep, hn]
    have hds : descriptionStep env groupid values = ([], true) := by
      simp [descriptionStep, hd]
    have hjs : jsondescriptionStep env groupid values = ([], true) := by
      simp [jsondescriptionStep, hj]
    cases hti : values.thumbnail with
    | none =>
      exfalso
      have hts : thumbnailStep env groupid values = ([], true) := by
        simp [thumbnailStep, hti]
      cases hc : (iconStep env groupid values).2 with
      | false =>
        rw [mutationFn_of_icon_abort env groupid values (by rw [hts]) hc]
          at hmem
        rw [hts] at hmem
        simp only [List.nil_append] at hmem
        exact oops_not_in_iconStep env groupid values hmem
      | true =>
        rw [mutationFn_of_all_continue env groupid values (by rw [hts]) hc
          (by rw [hns]) (by rw [hds]) (by rw [hjs])] at hmem
        rw [hts, hns, hds, hjs] at hmem
        have hfc : emptyCheckStep values =
            ⟨[], GSOutcome.threw⟩ := by
          simp [emptyCheckStep, hd, hn, hti]
        rw [hfc] at hmem
        simp only [List.nil_append, List.append_nil] at hmem
        exact oops_not_in_iconStep env groupid values hmem
    | some tl =>
      cases htic : values.icon with
      | some il => simp
      | none =>
        exfalso
        cases hc : (thumbnailStep env groupid values).2 with
        | false =>
          rw [mutationFn_of_thumbnail_abort env groupid values hc] at hmem
          exact oops_not_in_thumbnailStep env groupid values hmem
        | true =>
          have his : iconStep env groupid values = ([], true) := by
            simp [iconStep, htic]
          rw [mutationFn_of_all_continue env groupid values hc
            (by rw [his]) (by rw [hns]) (by rw [hds]) (by rw [hjs])] at hmem
          rw [his, hns, hds, hjs] at hmem
          by_cases hlen : tl.length = 0
          · have hfc : emptyCheckStep values = ⟨[], GSOutcome.threw⟩ := by
              simp [emptyCheckStep, hd, hn, hti, hlen, htic]
            rw [hfc] at hmem
            simp only [List.nil_append, List.append_nil] at hmem
            exact oops_not_in_thumbnailStep env groupid values hmem
          · have hfc : emptyCheckStep values =
                ⟨[GSEvent.toastSuccess "Group data updated"],
                 GSOutcome.returned⟩ := by
              simp [emptyCheckStep, hd, hn, hti, hlen]
            rw [hfc] at hmem
            simp only [List.nil_append, List.append_nil,
              List.mem_append] at hmem
            rcases hmem with hmem | hmem
            · exact oops_not_in_thumbnailStep env groupid values hmem
            · simp at hmem
  · intro env groupid values hn hd hj hic hdisj
    have hns : nameStep env groupid values = ([], true) := by
      simp [nameStep, hn]
    have hds : descriptionStep env groupid values = ([], true) := by
      simp [descriptionStep, hd]
    have hjs : jsondescriptionStep env groupid values = ([], true) := by
      simp [jsondescriptionStep, hj]
    rcases hdisj with hti | ⟨hti, htic⟩
    · have hts : thumbnailStep env groupid values = ([], true) := by
        simp [thumbnailStep, hti]
      rw [mutationFn_of_all_continue env groupid values (by rw [hts]) hic
        (by rw [hns]) (by rw [hds]) (by rw [hjs])]
      simp [emptyCheckStep, hd, hn, hti]
    · have hts : thumbnailStep env groupid values = ([], true) :=
        thumbnailStep_not_present env groupid values
          (by simp [presentFiles, hti])
      rw [mutationFn_of_all_continue env groupid values (by rw [hts]) hic
        (by rw [hns]) (by rw [hds]) (by rw [hjs])]
      simp [emptyCheckStep, hd, hn, hti, htic]

/-- Counterexample for C9 as stated: name, description and
jsondescription are all absent and the icon is undefined, yet the
mutation does not throw — the defined non-empty thumbnail short-circuits
the check and the mutation returns with a success toast. -/
theorem useGroupSettings_emptyCheck_reads_file_fields_counterexample :
    useGroupSettingsMutationFn ⟨fun _ => some "u1", fun _ _ => 200⟩ "g1"
        ⟨some ["t.png"], none, none, none, none⟩ =
      ⟨[GSEvent.uploadCall "t.png",
        GSEvent.updateCall "g1" "IMAGE" "u1" "/group/g1/settings",
        GSEvent.toastSuccess "Group data updated"],
       GSOutcome.returned⟩ := by
  decide

/-- Closed witness for C9 (amended): with an undefined thumbnail the
concrete mutation throws, and a concrete run that shows the empty-form
toast has both file fields defined. -/
theorem useGroupSettings_emptyCheck_reads_file_fields_witness :
    (useGroupSettingsMutationFn ⟨fun _ => some "u1", fun _ _ => 200⟩ "g8"
        ⟨none, some [], none, none, none⟩).outcome = GSOutcome.threw ∧
    ((some ([] : List String)).isSome ∧
      (some ([] : List String)).isSome) := by
  refine ⟨useGroupSettings_emptyCheck_reads_file_fields.2
    ⟨fun _ => some "u1", fun _ _ => 200⟩ "g8"
    ⟨none, some [], none, none, none⟩ rfl rfl rfl (by decide)
    (Or.inl rfl), ?_⟩
  exact useGroupSettings_emptyCheck_reads_file_fields.1
    ⟨fun _ => some "u1", fun _ _ => 200⟩ "g8"
    ⟨some [], some [], none, none, none⟩ rfl rfl rfl (by decide)

/-! ### Helper lemmas about the gallery batch loop -/

theorem persistedGallery_append (env : MGEnv) (a b : List MGEvent) :
    persistedGallery env (a ++ b) =
      persistedGallery env a ++ persistedGallery env b :=
  List.filterMap_append a b _

theorem galleryUploads_append (a b : List MGEvent) :
    galleryUploads (a ++ b) = galleryUploads a ++ galleryUploads b :=
  List.filterMap_append a b _

theorem galleryErrorCount_append (a b : List MGEvent) :
    galleryErrorCount (a ++ b) = galleryErrorCount a + galleryErrorCount b := by
  simp [galleryErrorCount, List.filter_append]

theorem galleryLoop_first_failure (env : MGEnv) (groupid : String)
    (pre : List String) (f : String) (post : List String)
    (hpre : ∀ x ∈ pre, fileCommits env x = true)
    (hf : fileCommits env f = false) :
    galleryLoop env groupid (pre ++ f :: post) =
      pre.bind (fun x =>
        [MGEvent.uploadCall x,
         MGEvent.galleryCall groupid ((env.upload x).getD "")]) ++
      galleryFailTail env groupid f := by
  induction pre with
  | nil =>
    cases hu : env.upload f with
    | none => simp [galleryLoop, hu, galleryFailTail]
    | some u =>
      cases hr : env.respond u with
      | none => simp [galleryLoop, hu, hr, galleryFailTail]
      | some r =>
        have hst : r.status ≠ 200 := by
          simpa [fileCommits, hu, hr] using hf
        simp [galleryLoop, hu, hr, hst, galleryFailTail]
  | cons x pre ih =>
    have hx : fileCommits env x = true := hpre x (List.mem_cons_self _ _)
    cases hux : env.upload x with
    | none => simp [fileCommits, hux] at hx
    | some u =>
      cases hrx : env.respond u with
      | none => simp [fileCommits, hux, hrx] at hx
      | some r =>
        have hst : r.status = 200 := by
          simpa [fileCommits, hux, hrx] using hx
        simp only [List.cons_append, galleryLoop, hux, hrx, hst,
          List.append_eq]
        rw [if_neg (by simp)]
        rw [ih fun y hy => hpre y (List.mem_cons_of_mem _ hy)]
        simp [hux]

theorem persistedGallery_of_commits (env : MGEnv) (groupid : String)
    (pre : List String)
    (hpre : ∀ x ∈ pre, fileCommits env x = true) :
    persistedGallery env (pre.bind fun x =>
        [MGEvent.uploadCall x,
         MGEvent.galleryCall groupid ((env.upload x).getD "")]) =
      pre.map fun x => (env.upload x).getD "" := by
  induction pre with
  | nil => rfl
  | cons x pre ih =>
    have hx : fileCommits env x = true := hpre x (List.mem_cons_self _ _)
    cases hux : env.upload x with
    | none => simp [fileCommits, hux] at hx
    | some u =>
      cases hrx : env.respond u with
      | none => simp [fileCommits, hux, hrx] at hx
      | some r =>
        have hst : r.status = 200 := by
          simpa [fileCommits, hux, hrx] using hx
        simp only [List.cons_bind, List.map_cons]
        rw [persistedGallery_append,
          ih fun y hy => hpre y (List.mem_cons_of_mem _ hy)]
        simp [persistedGallery, hux, hrx, hst]

theorem persistedGallery_failTail (env : MGEnv) (groupid : String)
    (f : String) (hf : fileCommits env f = false) :
    persistedGallery env (galleryFailTail env groupid f) = [] := by
  cases hu : env.upload f with
  | none => simp [galleryFailTail, hu, persistedGallery]
  | some u =>
    cases hr : env.respond u with
    | none => simp [galleryFailTail, hu, hr, persistedGallery]
    | some r =>
      have hst : r.status ≠ 200 := by
        simpa [fileCommits, hu, hr] using hf
      simp [galleryFailTail, hu, hr, persistedGallery, hst]

theorem galleryErrorCount_bind (env : MGEnv) (groupid : String)
    (pre : List String) :
    galleryErrorCount (pre.bind fun x =>
        [MGEvent.uploadCall x,
         MGEvent.galleryCall groupid ((env.upload x).getD "")]) = 0 := by
  induction pre with
  | nil => rfl
  | cons x pre ih =>
    simp only [List.cons_bind]
    rw [galleryErrorCount_append, ih]
    rfl

theorem galleryErrorCount_failTail (env : MGEnv) (groupid : String)
    (f : String) :
    galleryErrorCount (galleryFailTail env groupid f) = 1 := by
  cases hu : env.upload f with
  | none => simp [galleryFailTail, hu, galleryErrorCount]
  | some u =>
    cases hr : env.respond u with
    | none => simp [galleryFailTail, hu, hr, galleryErrorCount]
    | some r => simp [galleryFailTail, hu, hr, galleryErrorCount]

theorem galleryUploads_bind (env : MGEnv) (groupid : String)
    (pre : List String) :
    galleryUploads (pre.bind fun x =>
        [MGEvent.uploadCall x,
         MGEvent.galleryCall groupid ((env.upload x).getD "")]) = pre := by
  induction pre with
  | nil => rfl
  | cons x pre ih =>
    simp only [List.cons_bind]
    rw [galleryUploads_append, ih]
    rfl

theorem galleryUploads_failTail (env : MGEnv) (groupid : String)
    (f : String) :
    galleryUploads (galleryFailTail env groupid f) = [f] := by
  cases hu : env.upload f with
  | none => simp [galleryFailTail, hu, galleryUploads]
  | some u =>
    cases hr : env.respond u with
    | none => simp [galleryFailTail, hu, hr, galleryUploads]
    | some r => simp [galleryFailTail, hu, hr, galleryUploads]

/-- C4: for a batch submitted to the add mutation of `useMediaGallery`
with no video URL, the files before the first failing file are
uploaded and committed sequentially in submission order; at the first
failure (upload yields nothing, or the commit response is missing or
non-200) the remaining batch is halted (the failing file and the later
files are never persisted, the later files are not even uploaded), the
already-committed prefix stays persisted, and exactly one failure
notification is reported. -/
theorem useMediaGallery_first_failure_halts_batch :
    ∀ (env : MGEnv) (groupid : String) (pre : List String) (f : String)
      (post : List String),
      (∀ x ∈ pre, fileCommits env x = true) →
      fileCommits env f = false →
      useMediaGalleryMutationFn env groupid ⟨none, some (pre ++ f :: post)⟩ =
        pre.bind (fun x =>
          [MGEvent.uploadCall x,
           MGEvent.galleryCall groupid ((env.upload x).getD "")]) ++
        galleryFailTail env groupid f ++
        [MGEvent.toastSuccess "Group gallery updated"] ∧
      persistedGallery env (useMediaGalleryMutationFn env groupid
          ⟨none, some (pre ++ f :: post)⟩) =
        pre.map (fun x => (env.upload x).getD "") ∧
      galleryErrorCount (useMediaGalleryMutationFn env groupid
          ⟨none, some (pre ++ f :: post)⟩) = 1 ∧
      galleryUploads (useMediaGalleryMutationFn env groupid
          ⟨none, some (pre ++ f :: post)⟩) = pre ++ [f] := by
  intro env groupid pre f post hpre hf
  have hlen : (pre ++ f :: post).length ≠ 0 := by simp
  have hrun : useMediaGalleryMutationFn env groupid
      ⟨none, some (pre ++ f :: post)⟩ =
      pre.bind (fun x =>
        [MGEvent.uploadCall x,
         MGEvent.galleryCall groupid ((env.upload x).getD "")]) ++
      galleryFailTail env groupid f ++
      [MGEvent.toastSuccess "Group gallery updated"] := by
    simp only [useMediaGalleryMutationFn, truthyStr, hlen]
    rw [galleryLoop_first_failure env groupid pre f post hpre hf]
    simp
  refine ⟨hrun, ?_, ?_, ?_⟩
  · rw [hrun, persistedGallery_append, persistedGallery_append,
      persistedGallery_of_commits env groupid pre hpre,
      persistedGallery_failTail env groupid f hf]
    simp [persistedGallery]
  · rw [hrun, galleryErrorCount_append, galleryErrorCount_append,
      galleryErrorCount_bind, galleryErrorCount_failTail]
    rfl
  · rw [hrun, galleryUploads_append, galleryUploads_append,
      galleryUploads_bind, galleryUploads_failTail]
    simp [galleryUploads]

/-- Closed witness for C4: for the concrete batch [A, B, C] where the
upload of B fails, the trace uploads and commits A, uploads B, toasts
one error and halts; the persisted set is exactly the uuid of A, there
is exactly one failure notification, and C is never uploaded. -/
theorem useMediaGallery_first_failure_halts_batch_witness :
    useMediaGalleryMutationFn
        ⟨fun x => if x = "B.png" then none else some ("u-" ++ x),
         fun _ => some ⟨200, "ok"⟩⟩ "g1"
        ⟨none, some ["A.png", "B.png", "C.png"]⟩ =
      [MGEvent.uploadCall "A.png", MGEvent.galleryCall "g1" "u-A.png",
       MGEvent.uploadCall "B.png",
       MGEvent.toastError (some "Looks like something went wrong!"),
       MGEvent.toastSuccess "Group gallery updated"] ∧
    persistedGallery
        ⟨fun x => if x = "B.png" then none else some ("u-" ++ x),
         fun _ => some ⟨200, "ok"⟩⟩
        (useMediaGalleryMutationFn
          ⟨fun x => if x = "B.png" then none else some ("u-" ++ x),
           fun _ => some ⟨200, "ok"⟩⟩ "g1"
          ⟨none, some ["A.png", "B.png", "C.png"]⟩) = ["u-A.png"] ∧
    galleryErrorCount (useMediaGalleryMutationFn
        ⟨fun x => if x = "B.png" then none else some ("u-" ++ x),
         fun _ => some ⟨200, "ok"⟩⟩ "g1"
        ⟨none, some ["A.png", "B.png", "C.png"]⟩) = 1 ∧
    galleryUploads (useMediaGalleryMutationFn
        ⟨fun x => if x = "B.png" then none else some ("u-" ++ x),
         fun _ => some ⟨200, "ok"⟩⟩ "g1"
        ⟨none, some ["A.png", "B.png", "C.png"]⟩) = ["A.png", "B.png"] := by
  have h := useMediaGallery_first_failure_halts_batch
    ⟨fun x => if x = "B.png" then none else some ("u-" ++ x),
     fun _ => some ⟨200, "ok"⟩⟩ "g1" ["A.png"] "B.png" ["C.png"]
    (by decide) (by decide)
  exact ⟨h.1.trans (by decide), h.2.1.trans (by decide), h.2.2.1,
    h.2.2.2.trans (by decide)⟩

/-- C5: for a non-empty sequence of query changes in which each change
occurs less than 1000ms after the previous one, exactly one debounce
timer survives and fires, carrying the last change's value; a debounce
change to a non-empty value issues exactly one refetch with that value,
and a debounce transition from a non-empty value to the empty value
emits exactly the clear-results action and no fetch. -/
theorem useSearch_debounce_once_with_last_value :
    (∀ (c : Nat × String) (cs : List (Nat × String)),
      List.Chain (fun a b => b.1 < a.1 + 1000) c cs →
      debounceFires 1000 (c :: cs) =
        [((cs.getLastD c).1 + 1000, (cs.getLastD c).2)]) ∧
    (∀ old v : String, v ≠ old → v ≠ "" →
      onDebounceChange old v = [SearchAction.refetch v]) ∧
    ∀ old : String, old ≠ "" →
      onDebounceChange old "" = [SearchAction.clearSearch] := by
  refine ⟨?_, ?_, ?_⟩
  · intro c cs h
    induction cs generalizing c with
    | nil => rfl
    | cons c2 cs ih =>
      obtain ⟨t, v⟩ := c
      obtain ⟨t2, v2⟩ := c2
      rw [List.chain_cons] at h
      have hunfold : debounceFires 1000 ((t, v) :: (t2, v2) :: cs) =
          if t2 < t + 1000 then debounceFires 1000 ((t2, v2) :: cs)
          else (t + 1000, v) :: debounceFires 1000 ((t2, v2) :: cs) := rfl
      rw [List.getLastD_cons, hunfold, if_pos h.1]
      exact ih (t2, v2) h.2
  · intro old v h1 h2
    simp [onDebounceChange, h1, debounceEffectBody, h2]
  · intro old hold
    have h1 : ("" : String) ≠ old := fun hh => hold hh.symm
    simp [onDebounceChange, h1, debounceEffectBody]

/-- Closed witness for C5: three keystrokes 400ms and 500ms apart
produce exactly one fire carrying the last value, a non-empty debounce
change refetches once, and a non-empty-to-empty change clears without
fetching. -/
theorem useSearch_debounce_once_with_last_value_witness :
    debounceFires 1000 [(0, "a"), (400, "ab"), (900, "abc")] =
      [(1900, "abc")] ∧
    onDebounceChange "" "abc" = [SearchAction.refetch "abc"] ∧
    onDebounceChange "abc" "" = [SearchAction.clearSearch] := by
  refine ⟨?_,
    useSearch_debounce_once_with_last_value.2.1 "" "abc" (by decide)
      (by decide),
    useSearch_debounce_once_with_last_value.2.2 "abc" (by decide)⟩
  have h := useSearch_debounce_once_with_last_value.1 (0, "a")
    [(400, "ab"), (900, "abc")]
    (List.Chain.cons (by decide) (List.Chain.cons (by decide)
      List.Chain.nil))
  exact h.trans (by decide)

/-- C6: in the add-domain mutation of `useCustomDomain`, a "Success"
toast is shown exactly when the result status is 200 and an "Error"
toast carrying the result message otherwise, and the cached
domain-config query is invalidated exactly once after the mutation
settles, unconditionally — on success, on failure, and even on a
rejected mutation. -/
theorem useCustomDomain_toast_and_unconditional_invalidation :
    (∀ result : Option DomainResp,
      domainInvalidations (addDomainSettle result) = 1) ∧
    ∀ r : DomainResp,
      addDomainSettle (some r) =
        [DomainEvent.toastShown (if r.status = 200 then "Success" else "Error")
           r.message,
         DomainEvent.invalidateQueries "domain-config"] := by
  refine ⟨fun result => ?_, fun r => rfl⟩
  cases result <;> rfl

/-- C7: on every presence sync event whose snapshot has a first payload
under every key, `useGroupChatOnline` dispatches, for every key of the
snapshot in order, that key's first payload's `member.userid` as
now-online (a full snapshot's worth of ids), and upon the subscription
status reaching SUBSCRIBED it tracks its own `{member: {userid}}`
payload. -/
theorem useGroupChatOnline_sync_dispatches_and_subscribed_tracks :
    (∀ state : List (String × List PresencePayload),
      (∀ kv ∈ state, kv.2 ≠ []) →
      onPresenceSync state =
        state.map fun kv =>
          PresenceEvent.dispatchOnline [kv.2.headI.member.userid]) ∧
    ∀ userid : String,
      onSubscribeStatus userid "SUBSCRIBED" = [PresenceEvent.track userid] := by
  refine ⟨fun state h => ?_, fun userid => rfl⟩
  induction state with
  | nil => rfl
  | cons kv rest ih =>
    obtain ⟨k, payloads⟩ := kv
    match payloads with
    | [] => exact absurd rfl (h (k, []) (List.mem_cons_self _ _))
    | p :: ps =>
      simp only [onPresenceSync, List.map_cons, List.headI]
      exact congrArg _ (ih fun x hx => h x (List.mem_cons_of_mem _ hx))

/-- Closed witness for C7: the sync handler on a concrete two-key
snapshot dispatches both first payloads' userids, and a SUBSCRIBED
status tracks the local user. -/
theorem useGroupChatOnline_sync_dispatches_and_subscribed_tracks_witness :
    onPresenceSync [("c1", [⟨⟨"u1"⟩⟩]), ("c2", [⟨⟨"u2"⟩⟩, ⟨⟨"u3"⟩⟩])] =
      [PresenceEvent.dispatchOnline ["u1"],
       PresenceEvent.dispatchOnline ["u2"]] ∧
    onSubscribeStatus "u9" "SUBSCRIBED" = [PresenceEvent.track "u9"] := by
  refine ⟨?_, useGroupChatOnline_sync_dispatches_and_subscribed_tracks.2 "u9"⟩
  have h := useGroupChatOnline_sync_dispatches_and_subscribed_tracks.1
    [("c1", [⟨⟨"u1"⟩⟩]), ("c2", [⟨⟨"u2"⟩⟩, ⟨⟨"u3"⟩⟩])] (by decide)
  exact h.trans (by decide)

/-- C8: once the group-info fetch of `useGroupSettings` has returned,
the hook pushes the caller to `/group/create` exactly when the returned
status is not 200, and issues no redirect when the status is 200. -/
theorem useGroupSettings_redirects_iff_not_found :
    ∀ d : GroupInfoData,
      useGroupSettingsRedirects (some d) =
        if d.status = 200 then [] else ["/group/create"] := by
  intro d
  by_cases h : d.status = 200 <;>
    simp [useGroupSettingsRedirects, h]

/-- C10: when no cached about-group-info entry exists, `useGroupInfo`
issues its `/explore` redirect call and then throws on the
destructuring of the undefined data rather than returning. -/
theorem useGroupInfo_throws_without_cached_data :
    useGroupInfoRun none = GroupInfoResult.threw ["/explore"] := rfl

end SaaSLMS
